import Mathlib

/-
  Verification of the session/navigation logic of the registro-partos
  front-end (src/src/app/app.component.ts).

  The embedding models the observable state of the application:
  the two `AuthService` signals (`token`, `role`), the two persistent
  `localStorage` entries (keys `jwt_token` and `user_role`), and the three
  `App` component signals (`currentPage`, `errorMsg`, `isSubmitting`).
  Each TypeScript method becomes a pure state transformer; `navigate`
  additionally returns the console line it emits (its diagnostic output).
-/

namespace RegistroPartos

/-- The two pages of the manual router, `type Page = 'login' | 'dashboard'`. -/
inductive Page where
  | login
  | dashboard
deriving DecidableEq

/-- JavaScript truthiness of a `string | null` value, as used by
`!!this.token()`: `null` and the empty string are falsy, every other
string is truthy. -/
def truthy : Option String → Bool
  | none => false
  | some s => decide (s ≠ "")

/-- The shape of a successful response of the authentication endpoint,
`interface AuthResponse` in app.component.ts. -/
structure AuthResponse where
  token : String
  role : String
deriving DecidableEq

/-- The observable state of the application.

`jwt_token` and `user_role` are the values stored under the keys
`'jwt_token'` and `'user_role'` of `localStorage` (absent = `none`);
`token` and `role` are the `AuthService` signals; `currentPage`,
`errorMsg` and `isSubmitting` are the `App` component signals. -/
structure AppState where
  jwt_token : Option String
  user_role : Option String
  token : Option String
  role : Option String
  currentPage : Page
  errorMsg : Option String
  isSubmitting : Bool
deriving DecidableEq

/-- The computed guard `AuthService.isAuthenticated`, line 33:
`computed(() => !!this.token())`. -/
def isAuthenticated (s : AppState) : Bool :=
  truthy s.token

/-- `AuthService.setSession(token, role)`, lines 49-54: writes the two
`localStorage` entries and sets both signals. The source performs no
validation of its arguments. -/
def setSession (t r : String) (s : AppState) : AppState :=
  { s with jwt_token := some t, user_role := some r,
           token := some t, role := some r }

/-- `AuthService.logout()`, lines 59-64: removes both `localStorage`
entries and sets both signals to `null`. -/
def logout (s : AppState) : AppState :=
  { s with jwt_token := none, user_role := none,
           token := none, role := none }

/-- The state of the application right after the `AuthService` signals are
created (lines 29-30): `token` and `role` are loaded from `localStorage`
via `localStorage.getItem`, and the `App` component signals take their
declared initial values (`currentPage = 'login'`, `errorMsg = null`,
`isSubmitting = false`, lines 206-209). -/
def restoreState (storedToken storedRole : Option String) : AppState :=
  { jwt_token := storedToken, user_role := storedRole,
    token := storedToken, role := storedRole,
    currentPage := Page.login, errorMsg := none, isSubmitting := false }

/-- Rendering of a `Page` value, as interpolated into the console line
of `navigate`. -/
def pageStr : Page → String
  | Page.login => "login"
  | Page.dashboard => "dashboard"

/-- `App.navigate(page)`, lines 221-232. Clears `errorMsg`; if the target
is `'dashboard'` and the guard reports unauthenticated, forces
`currentPage` to `'login'` and emits the `console.warn` line, otherwise
sets `currentPage` to the target and emits the `console.log` line. The
returned string is the console line. -/
def navigate (page : Page) (s : AppState) : AppState × String :=
  let s1 := { s with errorMsg := none }
  if page = Page.dashboard ∧ isAuthenticated s1 = false then
    ({ s1 with currentPage := Page.login },
     "Acceso denegado. Redirigiendo a login.")
  else
    ({ s1 with currentPage := page }, "Navegando a: " ++ pageStr page)

/-- `App.ngOnInit()`, lines 211-214: the startup guard, evaluated
immediately by navigating to `'dashboard'` when authenticated and to
`'login'` otherwise. -/
def ngOnInit (s : AppState) : AppState :=
  (navigate (if isAuthenticated s then Page.dashboard else Page.login) s).1

/-- The synchronous part of `App.onLogin()`, lines 238-239: clear the
error message and set `isSubmitting` before issuing the request. -/
def onLoginStart (s : AppState) : AppState :=
  { s with errorMsg := none, isSubmitting := true }

/-- The fixed user-facing message set by the error handler of
`App.onLogin()`, line 250. -/
def loginErrorMsg : String :=
  "Usuario o contraseña incorrectos. Por favor, inténtalo de nuevo."

/-- The `next` handler of `App.onLogin()`, lines 243-247: store the
response via `setSession`, navigate to `'dashboard'`, clear
`isSubmitting`. -/
def onLoginNext (resp : AuthResponse) (s : AppState) : AppState :=
  let s1 := setSession resp.token resp.role s
  let s2 := (navigate Page.dashboard s1).1
  { s2 with isSubmitting := false }

/-- The `error` handler of `App.onLogin()`, lines 248-253: set the fixed
message, clear `isSubmitting`, then `logout()`. -/
def onLoginError (s : AppState) : AppState :=
  let s1 := { s with errorMsg := some loginErrorMsg, isSubmitting := false }
  logout s1

/-- A whole login submission whose endpoint call succeeds with `resp`:
the synchronous part of `onLogin` followed by the `next` handler. -/
def onLoginSuccess (resp : AuthResponse) (s : AppState) : AppState :=
  onLoginNext resp (onLoginStart s)

/-- A whole login submission whose endpoint call fails (unauthorized or
transport error): the synchronous part of `onLogin` followed by the
`error` handler. -/
def onLoginFailure (s : AppState) : AppState :=
  onLoginError (onLoginStart s)

/-- `App.logoutAndNavigate()`, lines 260-263. -/
def logoutAndNavigate (s : AppState) : AppState :=
  (navigate Page.login (logout s)).1

/-- A call to one of the two mutating `AuthService` session operations. -/
inductive SessionCall where
  | setCall (t r : String)
  | logoutCall
deriving DecidableEq

/-- Effect of one `SessionCall` on the state. -/
def applyCall (s : AppState) (c : SessionCall) : AppState :=
  match c with
  | SessionCall.setCall t r => setSession t r s
  | SessionCall.logoutCall => logout s

/-- Effect of a finite sequence of session calls, applied left to right. -/
def runCalls (s : AppState) (calls : List SessionCall) : AppState :=
  calls.foldl applyCall s

/-- The pairing invariant of the Session data model: the in-memory token
and role signals are set together, and so are the two persistent entries. -/
def pairedInv (s : AppState) : Prop :=
  s.token.isSome = s.role.isSome ∧ s.jwt_token.isSome = s.user_role.isSome

/-- The logged-out startup state: empty storage. -/
def s0 : AppState := restoreState none none

/-- A startup state restored from a persisted non-empty token and role. -/
def sAuth : AppState := restoreState (some "tok") (some "admin")

/-- A state whose token signal holds the empty string: the token is set
(non-null) but falsy. -/
def sEmptyTok : AppState :=
  { s0 with jwt_token := some "", user_role := some "r",
            token := some "", role := some "r" }

/-- C1: For every session state, calling `navigate('dashboard')` while the
Session Store is not authenticated results in `currentPage = 'login'` and a
non-empty diagnostic signal (the `console.warn` line); the session state —
both signals and both persistent entries — is unchanged by the refusal.
The operation is a total function, so it never raises. -/
theorem C1_navigate_guard (s : AppState) (h : isAuthenticated s = false) :
    (navigate Page.dashboard s).1.currentPage = Page.login ∧
    (navigate Page.dashboard s).2 ≠ "" ∧
    (navigate Page.dashboard s).1.token = s.token ∧
    (navigate Page.dashboard s).1.role = s.role ∧
    (navigate Page.dashboard s).1.jwt_token = s.jwt_token ∧
    (navigate Page.dashboard s).1.user_role = s.user_role := by
  have h1 : True ∧
      isAuthenticated { s with errorMsg := none } = false := ⟨trivial, h⟩
  simp only [navigate]
  rw [if_pos h1]
  refine ⟨rfl, ?_, rfl, rfl, rfl, rfl⟩
  show ("Acceso denegado. Redirigiendo a login." : String) ≠ ""
  decide

/-- Witness for C1 at the logged-out startup state. -/
theorem C1_navigate_guard_witness :
    isAuthenticated s0 = false ∧
    ((navigate Page.dashboard s0).1.currentPage = Page.login ∧
     (navigate Page.dashboard s0).2 ≠ "" ∧
     (navigate Page.dashboard s0).1.token = s0.token ∧
     (navigate Page.dashboard s0).1.role = s0.role ∧
     (navigate Page.dashboard s0).1.jwt_token = s0.jwt_token ∧
     (navigate Page.dashboard s0).1.user_role = s0.user_role) :=
  ⟨by decide, C1_navigate_guard s0 (by decide)⟩

/-- C5: For every starting state, a login submission whose endpoint call
succeeds with a non-empty token `t` and non-empty role `r` results in:
Session authenticated, role = `r`, `currentPage = 'dashboard'`, error
message unset, and `isSubmitting = false`. -/
theorem C5_login_success (s : AppState) (t r : String)
    (ht : t ≠ "") (_hr : r ≠ "") :
    isAuthenticated (onLoginSuccess ⟨t, r⟩ s) = true ∧
    (onLoginSuccess ⟨t, r⟩ s).role = some r ∧
    (onLoginSuccess ⟨t, r⟩ s).currentPage = Page.dashboard ∧
    (onLoginSuccess ⟨t, r⟩ s).errorMsg = none ∧
    (onLoginSuccess ⟨t, r⟩ s).isSubmitting = false := by
  simp [onLoginSuccess, onLoginNext, onLoginStart, setSession, navigate,
        isAuthenticated, truthy, ht]

/-- Witness for C5 with token "T" and role "R" from the startup state. -/
theorem C5_login_success_witness :
    ("T" : String) ≠ "" ∧ ("R" : String) ≠ "" ∧
    (isAuthenticated (onLoginSuccess ⟨"T", "R"⟩ s0) = true ∧
     (onLoginSuccess ⟨"T", "R"⟩ s0).role = some "R" ∧
     (onLoginSuccess ⟨"T", "R"⟩ s0).currentPage = Page.dashboard ∧
     (onLoginSuccess ⟨"T", "R"⟩ s0).errorMsg = none ∧
     (onLoginSuccess ⟨"T", "R"⟩ s0).isSubmitting = false) :=
  ⟨by decide, by decide, C5_login_success s0 "T" "R" (by decide) (by decide)⟩

/-- C8: At startup, after restoring the session from persistent storage,
`ngOnInit` leaves the initial page at `'dashboard'` exactly when the
restored token is present and non-empty (the Session Store reports
authenticated) and at `'login'` otherwise; the guard is computed
immediately inside `ngOnInit`. -/
theorem C8_startup_guard (storedToken storedRole : Option String) :
    (ngOnInit (restoreState storedToken storedRole)).currentPage =
      if truthy storedToken then Page.dashboard else Page.login := by
  cases h : truthy storedToken with
  | false => simp [ngOnInit, navigate, restoreState, isAuthenticated, h]
  | true => simp [ngOnInit, navigate, restoreState, isAuthenticated, h]

/-- C9: `logout` modifies only the token and role fields (signals and
storage), never the navigation state: `currentPage`, `errorMsg` and
`isSubmitting` are unchanged, so a session revoked while on the dashboard
stays on the dashboard until the next explicit `navigate` call. -/
theorem C9_logout_frame (s : AppState) :
    (logout s).currentPage = s.currentPage ∧
    (logout s).errorMsg = s.errorMsg ∧
    (logout s).isSubmitting = s.isSubmitting :=
  ⟨rfl, rfl, rfl⟩

/-- C10: If the endpoint returns a success response whose token is the
empty string, the `next` handler still writes both fields to storage via
`setSession`, but `isAuthenticated` remains false, the subsequent
`navigate('dashboard')` is refused by the guard, and the result is
unauthenticated, on the login page, with no error message and
`isSubmitting = false`. -/
theorem C10_empty_token_success (s : AppState) (r : String) :
    (onLoginSuccess ⟨"", r⟩ s).jwt_token = some "" ∧
    (onLoginSuccess ⟨"", r⟩ s).user_role = some r ∧
    isAuthenticated (onLoginSuccess ⟨"", r⟩ s) = false ∧
    (onLoginSuccess ⟨"", r⟩ s).currentPage = Page.login ∧
    (onLoginSuccess ⟨"", r⟩ s).errorMsg = none ∧
    (onLoginSuccess ⟨"", r⟩ s).isSubmitting = false := by
  simp [onLoginSuccess, onLoginNext, onLoginStart, setSession, navigate,
        isAuthenticated, truthy]

/-- Counterexample to C2 as stated: after the single-call sequence
`[setSession("", "r")]` the last call is a `setSession` call, yet
`isAuthenticated()` is false, because `!!` treats the empty-string token
as falsy. -/
theorem C2_counterexample :
    ([SessionCall.setCall "" "r"].getLast? =
      some (SessionCall.setCall "" "r")) ∧
    isAuthenticated (runCalls s0 [SessionCall.setCall "" "r"]) = false := by
  decide

/-- C2 (amended): for every finite non-empty sequence of `setSession` /
`logout` calls, from any starting state, `isAuthenticated()` afterwards is
true iff the last call was a `setSession` call with a non-empty token. -/
theorem C2_amended (s : AppState) (calls : List SessionCall)
    (c : SessionCall) (h : calls.getLast? = some c) :
    (isAuthenticated (runCalls s calls) = true ↔
      ∃ t r, c = SessionCall.setCall t r ∧ t ≠ "") := by
  induction calls generalizing s with
  | nil => simp at h
  | cons a l ih =>
    cases l with
    | nil =>
      simp only [List.getLast?_cons, List.getLastD_nil] at h
      cases h
      cases a with
      | setCall t r =>
        simp [runCalls, applyCall, setSession, isAuthenticated, truthy]
      | logoutCall =>
        simp [runCalls, applyCall, logout, isAuthenticated, truthy]
    | cons b l2 =>
      rw [List.getLast?_cons_cons] at h
      exact ih (applyCall s a) h

/-- Witness for C2 (amended) on the sequence `[setSession("x", "r")]`. -/
theorem C2_amended_witness :
    ([SessionCall.setCall "x" "r"].getLast? =
      some (SessionCall.setCall "x" "r")) ∧
    (isAuthenticated (runCalls s0 [SessionCall.setCall "x" "r"]) = true ↔
      ∃ t r, SessionCall.setCall "x" "r" = SessionCall.setCall t r ∧
        t ≠ "") :=
  ⟨by decide,
   C2_amended s0 [SessionCall.setCall "x" "r"]
     (SessionCall.setCall "x" "r") (by decide)⟩

/-- Counterexample to C3 as stated: `setSession` performs no validation —
called with both arguments empty it still writes, changing the state and
storing the empty token. -/
theorem C3_counterexample :
    (setSession "" "" s0).jwt_token = some "" ∧
    (setSession "" "" s0).token = some "" ∧
    setSession "" "" s0 ≠ s0 := by
  decide

/-- C3 (amended): `setSession(token, role)` performs no validation and
writes unconditionally; for every call with both arguments non-empty it
writes both values to persistent storage and to in-memory state, and
afterwards `isAuthenticated()` is true. -/
theorem C3_amended (t r : String) (s : AppState)
    (ht : t ≠ "") (_hr : r ≠ "") :
    (setSession t r s).jwt_token = some t ∧
    (setSession t r s).user_role = some r ∧
    (setSession t r s).token = some t ∧
    (setSession t r s).role = some r ∧
    isAuthenticated (setSession t r s) = true := by
  refine ⟨rfl, rfl, rfl, rfl, ?_⟩
  simp [setSession, isAuthenticated, truthy, ht]

/-- Witness for C3 (amended) with token "T" and role "R". -/
theorem C3_amended_witness :
    ("T" : String) ≠ "" ∧ ("R" : String) ≠ "" ∧
    ((setSession "T" "R" s0).jwt_token = some "T" ∧
     (setSession "T" "R" s0).user_role = some "R" ∧
     (setSession "T" "R" s0).token = some "T" ∧
     (setSession "T" "R" s0).role = some "R" ∧
     isAuthenticated (setSession "T" "R" s0) = true) :=
  ⟨by decide, by decide, C3_amended "T" "R" s0 (by decide) (by decide)⟩

/-- Counterexample to C4 as stated: the fixed message the error handler
sets is the Spanish string of line 250, not "invalid username or
password". -/
theorem C4_counterexample :
    (onLoginFailure s0).errorMsg = some loginErrorMsg ∧
    (onLoginFailure s0).errorMsg ≠ some "invalid username or password" := by
  decide

/-- C4 (amended): for every starting state, a login submission whose
endpoint call fails results in: the error message set to the fixed
user-facing message "Usuario o contraseña incorrectos. Por favor,
inténtalo de nuevo.", `isSubmitting = false`, the Session unconditionally
cleared via `logout()` (not authenticated even if previously
authenticated), and `currentPage` unchanged. -/
theorem C4_amended (s : AppState) :
    (onLoginFailure s).errorMsg = some loginErrorMsg ∧
    (onLoginFailure s).isSubmitting = false ∧
    isAuthenticated (onLoginFailure s) = false ∧
    (onLoginFailure s).token = none ∧
    (onLoginFailure s).role = none ∧
    (onLoginFailure s).jwt_token = none ∧
    (onLoginFailure s).user_role = none ∧
    (onLoginFailure s).currentPage = s.currentPage :=
  ⟨rfl, rfl, rfl, rfl, rfl, rfl, rfl, rfl⟩

/-- C6: the pairing invariant — token and role set and cleared together,
both in memory and in storage — holds after restore at startup whenever
the persisted entries themselves are paired (as normal operation
guarantees), and is preserved unconditionally by `setSession` and
`logout`. -/
theorem C6_invariant :
    (∀ storedToken storedRole : Option String,
        storedToken.isSome = storedRole.isSome →
        pairedInv (restoreState storedToken storedRole)) ∧
    (∀ (s : AppState) (t r : String), pairedInv (setSession t r s)) ∧
    (∀ s : AppState, pairedInv (logout s)) := by
  refine ⟨?_, ?_, ?_⟩
  · intro st sr h
    exact ⟨h, h⟩
  · intro s t r
    exact ⟨rfl, rfl⟩
  · intro s
    exact ⟨rfl, rfl⟩

/-- Witness for C6 at concrete storage contents and states. -/
theorem C6_invariant_witness :
    ((some "tok" : Option String).isSome =
       (some "admin" : Option String).isSome ∧
     pairedInv (restoreState (some "tok") (some "admin"))) ∧
    pairedInv (setSession "a" "b" s0) ∧
    pairedInv (logout s0) :=
  ⟨⟨rfl, C6_invariant.1 (some "tok") (some "admin") rfl⟩,
   C6_invariant.2.1 s0 "a" "b", C6_invariant.2.2 s0⟩

/-- Counterexample to C7 as stated: in the state whose token signal holds
the empty string the token is set (non-null), yet `isAuthenticated()` is
false, because `!!""` is false in JavaScript. -/
theorem C7_counterexample :
    sEmptyTok.token ≠ none ∧ isAuthenticated sEmptyTok = false := by
  decide

/-- C7 (amended): `isAuthenticated()` returns true iff a non-empty token
is currently set (a null token and an empty-string token are both falsy
under `!!`); it is pure and its value is a function of the token alone. -/
theorem C7_amended :
    (∀ s : AppState,
      isAuthenticated s = true ↔ ∃ t, s.token = some t ∧ t ≠ "") ∧
    (∀ s₁ s₂ : AppState, s₁.token = s₂.token →
      isAuthenticated s₁ = isAuthenticated s₂) := by
  constructor
  · intro s
    cases h : s.token with
    | none => simp [isAuthenticated, truthy, h]
    | some t => simp [isAuthenticated, truthy, h]
  · intro s₁ s₂ h
    simp [isAuthenticated, h]

/-- Witness for C7 (amended) at a concrete authenticated state. -/
theorem C7_amended_witness :
    (isAuthenticated sAuth = true ↔
      ∃ t, sAuth.token = some t ∧ t ≠ "") ∧
    isAuthenticated sAuth = isAuthenticated sAuth :=
  ⟨C7_amended.1 sAuth, C7_amended.2 sAuth sAuth rfl⟩

end RegistroPartos
